import Mathlib

/-!
Shallow embedding of the GoogleMapsBusinessScraper core
(src/core/scraper.ts, src/utils/selectors.ts, src/models/business.ts)
and proofs about its extraction-and-resilience pipeline.

Conventions of the embedding:
* A browser page is modelled as a total function from selector strings to
  query outcomes (`QueryResult`): an element handle, a miss (`page.$`
  returned null), or a thrown error (malformed selector / page error).
  TypeScript `try/catch` blocks become pattern matches on the `throws`
  outcome.
* JS `undefined` becomes `Option.none`; optional object fields become
  `Option` fields.  JS `Date` values and `Date.now()` timestamps become
  plain naturals supplied by the environment (`Page.now`).
* JS numbers carried by business records are modelled as exact rationals;
  the decimal literals handled by `parseFloat` here are tiny, so the
  rational value coincides with the IEEE-double value for every input
  considered, and `Math.round((k/9)*100)` for `k ≤ 9` is never within
  double-rounding distance of a tie.
-/

namespace GMaps

/-! ## DOM model -/

/-- An element handle: its text content (`null` becomes `none`) and its
attributes as a partial map from attribute name to value. -/
structure Element where
  textContent : Option String
  attr : String → Option String

/-- Outcome of `page.$(selector)`: a matching element, no match (null), or a
thrown error (e.g. malformed selector string). -/
inductive QueryResult where
  | found (el : Element)
  | missing
  | throws

/-- A page state: the DOM query function plus the ambient effects the
assembler reads (`page.url()`, `uuidv4()`, `new Date()` / `Date.now()`). -/
structure Page where
  query : String → QueryResult
  url : String := ""
  uuid : String := ""
  now : ℕ := 0

/-! ## Selector table (src/utils/selectors.ts) -/

def SELECTORS_search_resultsContainer : String := "div[role=\"feed\"]"

def SELECTORS_search_noResultsMessage : String := "div.section-no-result"

def SELECTORS_searchResults_businessCard : String := "div[role=\"article\"]"

def SELECTORS_details_panel : String := "div[role=\"main\"][aria-label]"

def SELECTORS_details_businessName : String := "h1[class*=\"fontHeadlineLarge\"]"

def SELECTORS_details_rating : String :=
  "div[class*=\"fontBodyMedium\"] span[role=\"img\"][aria-label*=\"stars\"]"

def SELECTORS_details_reviewCount : String := "button[aria-label*=\"reviews\"]"

def SELECTORS_details_priceLevel : String := "span[aria-label*=\"Price\"]"

def SELECTORS_details_businessType : String := "button[class*=\"fontBodyMedium\"] span"

def SELECTORS_contact_phoneNumber : String :=
  "button[data-item-id*=\"phone\"] div[class*=\"fontBodyMedium\"]"

def SELECTORS_contact_websiteUrl : String := "a[data-item-id=\"authority\"]"

def SELECTORS_contact_fullAddress : String :=
  "button[data-item-id=\"address\"] div[class*=\"fontBodyMedium\"]"

/-- `FALLBACK_SELECTORS.businessName` from src/utils/selectors.ts. -/
def FALLBACK_businessName : List String :=
  [ "h1[class*=\"fontHeadlineLarge\"]"
  , "h1.section-hero-header-title-title"
  , "div[role=\"heading\"][aria-level=\"1\"]"
  , "h1" ]

/-- `FALLBACK_SELECTORS.phoneNumber` from src/utils/selectors.ts. -/
def FALLBACK_phoneNumber : List String :=
  [ "button[data-item-id*=\"phone\"] div[class*=\"fontBodyMedium\"]"
  , "button[aria-label*=\"Phone\"] span"
  , "a[href^=\"tel:\"]" ]

/-- `FALLBACK_SELECTORS.website` from src/utils/selectors.ts. -/
def FALLBACK_website : List String :=
  [ "a[data-item-id=\"authority\"]"
  , "a[aria-label*=\"Website\"]"
  , "a[href^=\"http\"]:not([href*=\"google.com\"])" ]

/-! ## Business record model (src/models/business.ts) -/

structure BusinessHours where
  monday : Option String := none
  tuesday : Option String := none
  wednesday : Option String := none
  thursday : Option String := none
  friday : Option String := none
  saturday : Option String := none
  sunday : Option String := none

structure BusinessLocation where
  latitude : Option ℚ := none
  longitude : Option ℚ := none
  plusCode : Option String := none
  fullAddress : String := ""
  street : Option String := none
  city : String := ""
  state : Option String := none
  country : String := ""
  postalCode : Option String := none

/-- `BusinessContact`.  The interface has no `fullAddress` member, but
`extractBusinessData` writes one through an untyped (`any`) record, so the
embedding carries it as an extra optional field. -/
structure BusinessContact where
  phoneNumber : Option String := none
  alternativePhone : Option String := none
  website : Option String := none
  email : Option String := none
  whatsapp : Option String := none
  fullAddress : Option String := none

structure BusinessSocialMedia where
  facebook : Option String := none
  instagram : Option String := none
  twitter : Option String := none
  linkedin : Option String := none
  youtube : Option String := none
  tiktok : Option String := none

/-- `BusinessMetrics` (the free-form `popularTimes` record is untouched by
the scraper and is omitted). -/
structure BusinessMetrics where
  rating : Option ℚ := none
  reviewCount : Option ℕ := none
  priceLevel : Option String := none
  responseRate : Option ℚ := none
  responseTime : Option String := none

structure BusinessAttributes where
  hasWebsite : Bool := false
  hasOnlineOrdering : Option Bool := none
  hasDelivery : Option Bool := none
  hasTakeout : Option Bool := none
  hasDineIn : Option Bool := none
  wheelchairAccessible : Option Bool := none
  hasWifi : Option Bool := none
  hasParking : Option Bool := none
  acceptsCreditCards : Option Bool := none
  acceptsCash : Option Bool := none
  hasReservations : Option Bool := none
  goodForGroups : Option Bool := none
  goodForKids : Option Bool := none
  hasOutdoorSeating : Option Bool := none
  servesVegetarian : Option Bool := none
  servesVegan : Option Bool := none
  servesKosher : Option Bool := none

structure BusinessImages where
  logoUrl : Option String := none
  coverPhotoUrl : Option String := none
  photoUrls : List String := []
  menuUrls : Option (List String) := none
  streetViewUrl : Option String := none

/-- The `Business` interface.  Fields that `Partial<Business>` leaves
undefined default to `none` (or `""` / `[]` / `0` for the required string,
list and date fields, which every code path overwrites before use). -/
structure Business where
  id : String := ""
  googleMapsId : Option String := none
  placeId : Option String := none
  businessName : String := ""
  businessNameEnglish : Option String := none
  businessNameHebrew : Option String := none
  description : Option String := none
  businessType : String := ""
  businessCategories : List String := []
  location : BusinessLocation := {}
  contact : BusinessContact := {}
  socialMedia : BusinessSocialMedia := {}
  metrics : BusinessMetrics := {}
  attributes : BusinessAttributes := {}
  businessHours : Option BusinessHours := none
  isOpen24Hours : Option Bool := none
  temporarilyClosed : Option Bool := none
  permanentlyClosed : Option Bool := none
  openingDate : Option ℕ := none
  images : BusinessImages := {}
  googleMapsUrl : String := ""
  lastUpdated : ℕ := 0
  scrapedAt : ℕ := 0
  dataQualityScore : Option ℕ := none
  dataCompleteness : Option ℕ := none
  ownerName : Option String := none
  ownerResponse : Option String := none
  servicesOffered : Option (List String) := none
  paymentMethods : Option (List String) := none
  languages : Option (List String) := none
  certifications : Option (List String) := none
  awards : Option (List String) := none
  yearEstablished : Option ℕ := none

/-- `createEmptyBusiness` from src/models/business.ts; `now` stands for the
two `new Date()` calls. -/
def createEmptyBusiness (now : ℕ) : Business :=
  { businessName := ""
  , businessType := ""
  , businessCategories := []
  , location := { fullAddress := "", city := "", country := "Israel" }
  , contact := {}
  , socialMedia := {}
  , metrics := {}
  , attributes := { hasWebsite := false }
  , images := { photoUrls := [] }
  , googleMapsUrl := ""
  , lastUpdated := now
  , scrapedAt := now }

/-! ## Data completeness (src/models/business.ts) -/

/-- A JavaScript value as it appears in the heterogeneous `fields` array of
`calculateDataCompleteness`: `undefined`, a string, a number (rating), a
non-negative integer (review count) or a business-hours object.  Nothing in
the embedded code produces `null`, so the `field !== null` test is vacuous
here. -/
inductive JsField where
  | undef
  | str (s : String)
  | num (q : ℚ)
  | int (n : ℕ)
  | hours (h : BusinessHours)

/-- The predicate `field !== undefined && field !== null && field !== ''`:
only `undefined` (and `null`) and the empty string are filtered out; any
number or object counts as filled. -/
def JsField.isFilled : JsField → Bool
  | .undef => false
  | .str s => s ≠ ""
  | .num _ => true
  | .int _ => true
  | .hours _ => true

def jsOfOptStr : Option String → JsField
  | none => .undef
  | some s => .str s

def jsOfOptNum : Option ℚ → JsField
  | none => .undef
  | some q => .num q

def jsOfOptInt : Option ℕ → JsField
  | none => .undef
  | some n => .int n

def jsOfOptHours : Option BusinessHours → JsField
  | none => .undef
  | some h => .hours h

/-- The nine-element `fields` array of `calculateDataCompleteness`, in
source order. -/
def completenessFields (business : Business) : List JsField :=
  [ .str business.businessName
  , .str business.location.fullAddress
  , jsOfOptStr business.contact.phoneNumber
  , jsOfOptStr business.contact.website
  , jsOfOptNum business.metrics.rating
  , jsOfOptInt business.metrics.reviewCount
  , jsOfOptHours business.businessHours
  , jsOfOptStr business.images.logoUrl
  , jsOfOptStr business.description ]

/-- `Math.round (num / den)` on non-negative rationals: `⌊num/den + 1/2⌋`.
For the arguments arising here the double-precision evaluation in JS agrees
with this exact value (see the header note). -/
def mathRound (num den : ℕ) : ℕ := (2 * num + den) / (2 * den)

/-- `calculateDataCompleteness` from src/models/business.ts:
`Math.round((filledFields / fields.length) * 100)`. -/
def calculateDataCompleteness (business : Business) : ℕ :=
  let fields := completenessFields business
  let filledFields := (fields.filter JsField.isFilled).length
  mathRound (filledFields * 100) fields.length

/-! ## Field extraction helpers (scraper.ts lines 332 to 366) -/

/-- JS `String.prototype.trim`: strip leading and trailing whitespace
(modelled on the character list so that it evaluates by structural
recursion). -/
def jsTrim (s : String) : String :=
  String.mk (((s.toList.dropWhile Char.isWhitespace).reverse.dropWhile
    Char.isWhitespace).reverse)

/-- `extractText`: `page.$(selector)`, null gives `''`, otherwise
`text?.trim() || ''`; any thrown error is caught and gives `''`. -/
def extractText (page : Page) (selector : String) : String :=
  match page.query selector with
  | .found el => ((el.textContent).map jsTrim).getD ""
  | .missing => ""
  | .throws => ""

/-- `extractHref`: `page.$(selector)`, null gives `''`, otherwise
`href || ''`; any thrown error is caught and gives `''`. -/
def extractHref (page : Page) (selector : String) : String :=
  match page.query selector with
  | .found el => (el.attr "href").getD ""
  | .missing => ""
  | .throws => ""

/-- `extractAriaLabel`: like `extractHref` with the `aria-label`
attribute. -/
def extractAriaLabel (page : Page) (selector : String) : String :=
  match page.query selector with
  | .found el => (el.attr "aria-label").getD ""
  | .missing => ""
  | .throws => ""

/-! ## Rating and review-count parsing (scraper.ts lines 368 to 376)

`parseRating` runs `ratingText.match(/(\d+\.?\d*)\s*star/)`.  The regex has
no `i` flag, so matching is case sensitive.  For this pattern the greedy
left-to-right scan below coincides with full backtracking semantics:
shrinking `\d+` leaves a digit that `\d*` re-consumes to the same point,
dropping a present `.` strands the scan on that `.`, and shrinking `\d*`
or `\s*` puts a digit or a space where the literal `star` must start. -/

def starLit : List Char := ['s', 't', 'a', 'r']

def reviewLit : List Char := ['r', 'e', 'v', 'i', 'e', 'w']

/-- Literal-prefix test on character lists. -/
def beginsWith : List Char → List Char → Bool
  | [], _ => true
  | _ :: _, [] => false
  | p :: ps, c :: cs => p = c && beginsWith ps cs

/-- The scan position after consuming `\d+\.?\d*` at the head of `cs`. -/
def afterNum (cs : List Char) : List Char :=
  match cs.dropWhile Char.isDigit with
  | '.' :: r => r.dropWhile Char.isDigit
  | rest => rest

/-- The fraction digits consumed by `\d*` after the optional dot. -/
def fracDigits (cs : List Char) : List Char :=
  match cs.dropWhile Char.isDigit with
  | '.' :: r => r.takeWhile Char.isDigit
  | _ => []

/-- Attempt `(\d+\.?\d*)\s*star` anchored at the head of `cs`; returns the
integer and fraction digits of the capture group on success. -/
def matchStarAt (cs : List Char) : Option (List Char × List Char) :=
  if (cs.takeWhile Char.isDigit).isEmpty then none
  else if beginsWith starLit ((afterNum cs).dropWhile Char.isWhitespace) then
    some (cs.takeWhile Char.isDigit, fracDigits cs)
  else none

/-- Leftmost match of `(\d+\.?\d*)\s*star`. -/
def findStarNum : List Char → Option (List Char × List Char)
  | [] => none
  | c :: cs =>
    match matchStarAt (c :: cs) with
    | some r => some r
    | none => findStarNum cs

/-- Numeric value of a digit list (`parseInt(·, 10)` on an all-digit
string). -/
def digitsToNat (ds : List Char) : ℕ :=
  ds.foldl (fun n c => 10 * n + (c.toNat - '0'.toNat)) 0

/-- `parseFloat` on a capture of shape `\d+\.?\d*`, split into integer and
fraction digits: an exact decimal value. -/
def jsParseFloat (ds frac : List Char) : ℚ :=
  (digitsToNat ds : ℚ) + (digitsToNat frac : ℚ) / ((10 : ℚ) ^ frac.length)

/-- `parseRating` from scraper.ts. -/
def parseRating (ratingText : String) : Option ℚ :=
  match findStarNum ratingText.toList with
  | some (ds, frac) => some (jsParseFloat ds frac)
  | none => none

/-- Attempt `(\d+)\s*review` anchored at the head of `cs`. -/
def matchReviewAt (cs : List Char) : Option (List Char) :=
  let ds := cs.takeWhile Char.isDigit
  let rest := cs.dropWhile Char.isDigit
  if ds.isEmpty then none
  else if beginsWith reviewLit (rest.dropWhile Char.isWhitespace) then some ds
  else none

/-- Leftmost match of `(\d+)\s*review`. -/
def findReviewNum : List Char → Option (List Char)
  | [] => none
  | c :: cs =>
    match matchReviewAt (c :: cs) with
    | some r => some r
    | none => findReviewNum cs

/-- `parseReviewCount` from scraper.ts. -/
def parseReviewCount (reviewText : String) : Option ℕ :=
  (findReviewNum reviewText.toList).map digitsToNat

/-- `extractCityFromAddress` from scraper.ts: split on commas and take the
second-to-last part, trimmed; `''` when there are fewer than two parts. -/
def extractCityFromAddress (address : String) : String :=
  let parts := address.splitOn ","
  if parts.length ≥ 2 then jsTrim (parts.getD (parts.length - 2) "") else ""

/-! ## Stubs (scraper.ts lines 384 to 392) -/

/-- `extractBusinessHours`: the body is `return undefined` (TODO stub). -/
def extractBusinessHours (_page : Page) : Option BusinessHours := none

/-- `extractImageUrls`: the body is `return []` (TODO stub). -/
def extractImageUrls (_page : Page) : List String := []

/-! ## Business assembler (scraper.ts lines 273 to 327) -/

/-- JS truthiness `!!x` of a string-or-undefined value: `undefined` and
`''` are falsy, every other string is truthy. -/
def jsTruthyStr : Option String → Bool
  | none => false
  | some s => s ≠ ""

/-- JS `x || d` on a string-or-undefined value: `undefined` and `''` fall
back to the default. -/
def jsOrStr : Option String → String → String
  | none, d => d
  | some s, d => if s = "" then d else s

/-- `extractBusinessData`: builds the record starting from
`createEmptyBusiness()` and overwriting field groups in source order. -/
def extractBusinessData (page : Page) : Business :=
  let contact : BusinessContact :=
    { phoneNumber := some (extractText page SELECTORS_contact_phoneNumber)
    , website := some (extractHref page SELECTORS_contact_websiteUrl)
    , fullAddress := some (extractText page SELECTORS_contact_fullAddress) }
  let address := jsOrStr contact.fullAddress ""
  let businessType := jsOrStr (some (extractText page SELECTORS_details_businessType)) "Unknown"
  { createEmptyBusiness page.now with
    id := page.uuid
  , scrapedAt := page.now
  , businessName := extractText page SELECTORS_details_businessName
  , googleMapsUrl := page.url
  , contact := contact
  , attributes := { hasWebsite := jsTruthyStr contact.website }
  , location := { fullAddress := address
                , city := extractCityFromAddress address
                , country := "Israel" }
  , metrics := { rating := parseRating (extractAriaLabel page SELECTORS_details_rating)
               , reviewCount := parseReviewCount (extractText page SELECTORS_details_reviewCount)
               , priceLevel := some (extractText page SELECTORS_details_priceLevel) }
  , businessType := businessType
  , businessCategories := [businessType]
  , businessHours := extractBusinessHours page
  , images := { photoUrls := extractImageUrls page }
  , lastUpdated := page.now }

/-! ## Scrape results and the search session (scraper.ts lines 58 to 267) -/

/-- `ScrapeResult` from src/models/business.ts: success tag plus optional
payload / error / retry metadata.  Durations are integers (a JS
`Date.now()` difference). -/
structure ScrapeResult where
  success : Bool
  business : Option Business := none
  error : Option String := none
  retryable : Option Bool := none
  duration : Option Int := none

/-- One result card of a session.  `detailOk` is true when the click and
the `waitForSelector(details.panel)` both succeed within their timeouts;
`errMsg` is the message of the error caught otherwise; `page` is the detail
page state at extraction time and `finishTime` the `Date.now()` value when
the result is wrapped. -/
structure Card where
  detailOk : Bool
  page : Page := { query := fun _ => QueryResult.missing }
  errMsg : String := ""
  finishTime : ℕ := 0

/-- One search session, as the scraper observes it after query submission:
whether a result card appeared within the 15 s wait, whether the
`noResultsMessage` element is present when that wait times out, the message
of the underlying timeout error, the scroll state of the results container,
and the result cards in DOM order. -/
structure Session where
  cardsAppeared : Bool
  noResultsShown : Bool := false
  timeoutMessage : String := "Timeout 15000ms exceeded."
  containerFound : Bool := true
  heights : ℕ → ℕ := fun _ => 0
  cards : List Card := []

/-- Iteration bound of `scrollResults` (`maxScrollAttempts`). -/
def maxScrollAttempts : ℕ := 10

/-- The `while (previousHeight !== currentHeight && scrollAttempts <
maxScrollAttempts)` loop of `scrollResults`; `heights obs` is the
`scrollHeight` read by the `obs`-th `evaluate` call.  Returns the final
`(previousHeight, currentHeight, scrollAttempts)`. -/
def scrollGo (heights : ℕ → ℕ) (previousHeight currentHeight obs scrollAttempts : ℕ) :
    ℕ × ℕ × ℕ :=
  if h : previousHeight ≠ currentHeight ∧ scrollAttempts < maxScrollAttempts then
    scrollGo heights currentHeight (heights obs) (obs + 1) (scrollAttempts + 1)
  else
    (previousHeight, currentHeight, scrollAttempts)
termination_by maxScrollAttempts - scrollAttempts
decreasing_by omega

/-- `scrollResults`: early return when the container is absent, otherwise
run the loop with `previousHeight = 0` and the first `scrollHeight`
observation. -/
def scrollResults (s : Session) : ℕ × ℕ × ℕ :=
  if s.containerFound then scrollGo s.heights 0 (s.heights 0) 1 0 else (0, 0, 0)

/-- `waitForSearchResults`: succeed when a business card appears (then
settle and scroll, which never throw); on timeout, throw the dedicated
no-results error if the indicator is present, otherwise rethrow the timeout
error.  A thrown JS error is modelled as `Except.error` carrying its
message. -/
def waitForSearchResults (s : Session) : Except String Unit :=
  if s.cardsAppeared then Except.ok ()
  else if s.noResultsShown then Except.error "No results found for search query"
  else Except.error s.timeoutMessage

/-- `extractBusinessCards`: `page.$$(businessCard)` then `slice(0, limit)`. -/
def extractBusinessCards (s : Session) (limit : ℕ) : List Card :=
  s.cards.take limit

/-- `extractBusinessDetails`: click the card and wait for the details
panel; on success wrap the assembled record, on any caught error return a
failure-tagged retryable result.  The function itself never throws. -/
def extractBusinessDetails (card : Card) : ScrapeResult :=
  if card.detailOk then
    let business := extractBusinessData card.page
    { success := true
    , business := some business
    , duration := some ((card.finishTime : Int) - (business.scrapedAt : Int)) }
  else
    { success := false, error := some card.errMsg, retryable := some true }

/-- `searchBusinesses` (search phase onward): wait for results, enumerate
at most `limit` cards, and push one `ScrapeResult` per card in order.  The
per-card `try/catch` in the loop only re-wraps errors, and
`extractBusinessDetails` already catches everything, so the loop body is a
total map; the outer `catch` rethrows session-level errors to the
caller. -/
def searchBusinesses (s : Session) (limit : ℕ) : Except String (List ScrapeResult) :=
  match waitForSearchResults s with
  | .error e => .error e
  | .ok _ => .ok ((extractBusinessCards s limit).map extractBusinessDetails)

/-! ## Spec-side definitions used for comparison -/

/-- Follows the spec's words (section 4.2): resolve an ordered fallback
list by trying each locator in declared order, first element match wins. -/
def resolveWithFallbacks (page : Page) : List String → Option Element
  | [] => none
  | l :: ls =>
    match page.query l with
    | .found el => some el
    | _ => resolveWithFallbacks page ls

/-- Follows the spec's words: `extractText` driven by a fallback list
rather than a single locator. -/
def extractTextFallbacksSpec (page : Page) (locators : List String) : String :=
  match resolveWithFallbacks page locators with
  | some el => ((el.textContent).map jsTrim).getD ""
  | none => ""

/-- Case-insensitive literal-prefix test, as the spec's words
"(first match, case-insensitive)" would require for the `star` literal. -/
def beginsWithCI : List Char → List Char → Bool
  | [], _ => true
  | _ :: _, [] => false
  | p :: ps, c :: cs => p.toLower = c.toLower && beginsWithCI ps cs

/-- Follows the spec's words: `matchStarAt` with the `star` literal
compared case-insensitively. -/
def matchStarAtCI (cs : List Char) : Option (List Char × List Char) :=
  if (cs.takeWhile Char.isDigit).isEmpty then none
  else if beginsWithCI starLit ((afterNum cs).dropWhile Char.isWhitespace) then
    some (cs.takeWhile Char.isDigit, fracDigits cs)
  else none

/-- Follows the spec's words: leftmost case-insensitive match. -/
def findStarNumCI : List Char → Option (List Char × List Char)
  | [] => none
  | c :: cs =>
    match matchStarAtCI (c :: cs) with
    | some r => some r
    | none => findStarNumCI cs

/-- Follows the spec's words: case-insensitive rating parse. -/
def parseRatingCI (ratingText : String) : Option ℚ :=
  match findStarNumCI ratingText.toList with
  | some (ds, frac) => some (jsParseFloat ds frac)
  | none => none

/-! ## Spec-side field accounting for the completeness score -/

/-- Whether an optional string field counts as filled:
defined, non-null and non-empty. -/
def strFilled : Option String → Bool
  | none => false
  | some s => s ≠ ""

/-- The claim's field-by-field count over the nine-field subset of the
completeness score. -/
def specFilledCount (b : Business) : ℕ :=
  (if b.businessName ≠ "" then 1 else 0)
  + (if b.location.fullAddress ≠ "" then 1 else 0)
  + (if strFilled b.contact.phoneNumber then 1 else 0)
  + (if strFilled b.contact.website then 1 else 0)
  + (if (b.metrics.rating).isSome then 1 else 0)
  + (if (b.metrics.reviewCount).isSome then 1 else 0)
  + (if (b.businessHours).isSome then 1 else 0)
  + (if strFilled b.images.logoUrl then 1 else 0)
  + (if strFilled b.description then 1 else 0)

/-- The same count with the hours and logo entries removed. -/
def sevenFilledCount (b : Business) : ℕ :=
  (if b.businessName ≠ "" then 1 else 0)
  + (if b.location.fullAddress ≠ "" then 1 else 0)
  + (if strFilled b.contact.phoneNumber then 1 else 0)
  + (if strFilled b.contact.website then 1 else 0)
  + (if (b.metrics.rating).isSome then 1 else 0)
  + (if (b.metrics.reviewCount).isSome then 1 else 0)
  + (if strFilled b.description then 1 else 0)

/-- Agreement of two records on the nine fields tracked by the
completeness score. -/
def nineFieldsAgree (b b2 : Business) : Prop :=
  b.businessName = b2.businessName
  ∧ b.location.fullAddress = b2.location.fullAddress
  ∧ b.contact.phoneNumber = b2.contact.phoneNumber
  ∧ b.contact.website = b2.contact.website
  ∧ b.metrics.rating = b2.metrics.rating
  ∧ b.metrics.reviewCount = b2.metrics.reviewCount
  ∧ b.businessHours = b2.businessHours
  ∧ b.images.logoUrl = b2.images.logoUrl
  ∧ b.description = b2.description

/-- The spec's reading of `hasWebsite`: the website field holds a
non-empty string. -/
def websiteNonEmpty (o : Option String) : Prop := ∃ s, o = some s ∧ s ≠ ""

/-! ## Concrete objects used by witnesses and counterexamples -/

/-- A page on which every selector misses. -/
def pageAllMiss : Page := { query := fun _ => QueryResult.missing }

def elAcme : Element := { textContent := some "Acme", attr := fun _ => none }

/-- A page on which only the bare `h1` selector (the last business-name
fallback) matches; the primary business-name selector misses. -/
def pageFallbackOnly : Page :=
  { query := fun s => if s = "h1" then QueryResult.found elAcme else QueryResult.missing }

/-- A record with every one of the nine tracked fields populated. -/
def populatedBusiness : Business :=
  { createEmptyBusiness 0 with
    businessName := "Cafe Noga"
  , description := some "A cafe"
  , location := { fullAddress := "Dizengoff 123, Tel Aviv, Israel"
                , city := "Tel Aviv", country := "Israel" }
  , contact := { phoneNumber := some "03-1234567", website := some "https://example.com" }
  , metrics := { rating := some ((9 : ℚ) / 2), reviewCount := some 120 }
  , businessHours := some {}
  , images := { logoUrl := some "https://example.com/logo.png", photoUrls := [] } }

/-- `populatedBusiness` with two untracked fields changed. -/
def populatedBusinessAlt : Business :=
  { populatedBusiness with
    businessType := "cafe"
  , metrics := { populatedBusiness.metrics with priceLevel := some "$$" } }

def sessionNoResults : Session := { cardsAppeared := false, noResultsShown := true }

def cardOk : Card := { detailOk := true }

def cardBad : Card := { detailOk := false, errMsg := "Timeout 10000ms exceeded." }

def session12 : Session := { cardsAppeared := true, cards := List.replicate 12 cardOk }

def sessionWithBadCard : Session :=
  { cardsAppeared := true, cards := [cardOk, cardOk, cardBad, cardOk, cardOk] }

def dummyCard : Card := { detailOk := true }

def dummyResult : ScrapeResult := { success := true }

/-! ## Helper lemmas -/

theorem extractBusinessData_website (page : Page) :
    (extractBusinessData page).contact.website
      = some (extractHref page SELECTORS_contact_websiteUrl) := rfl

theorem extractBusinessData_hasWebsite (page : Page) :
    (extractBusinessData page).attributes.hasWebsite
      = jsTruthyStr (some (extractHref page SELECTORS_contact_websiteUrl)) := rfl

theorem extractBusinessData_businessName (page : Page) :
    (extractBusinessData page).businessName
      = extractText page SELECTORS_details_businessName := rfl

theorem extractBusinessData_phoneNumber (page : Page) :
    (extractBusinessData page).contact.phoneNumber
      = some (extractText page SELECTORS_contact_phoneNumber) := rfl

theorem extractText_congr {p q : Page} (s : String)
    (h : p.query s = q.query s) : extractText p s = extractText q s := by
  unfold extractText
  rw [h]

theorem extractHref_congr {p q : Page} (s : String)
    (h : p.query s = q.query s) : extractHref p s = extractHref q s := by
  unfold extractHref
  rw [h]

theorem filled_count_cons (f : JsField) (l : List JsField) :
    ((f :: l).filter JsField.isFilled).length
      = (if JsField.isFilled f then 1 else 0) + (l.filter JsField.isFilled).length := by
  cases h : JsField.isFilled f <;> simp [List.filter_cons, h, Nat.add_comm]

theorem filled_if_str (s : String) :
    (if JsField.isFilled (JsField.str s) then 1 else 0 : ℕ)
      = if s ≠ "" then 1 else 0 := by
  simp [JsField.isFilled]

theorem filled_if_optStr (o : Option String) :
    (if JsField.isFilled (jsOfOptStr o) then 1 else 0 : ℕ)
      = if strFilled o then 1 else 0 := by
  cases o <;> simp [jsOfOptStr, JsField.isFilled, strFilled]

theorem filled_if_optNum (o : Option ℚ) :
    (if JsField.isFilled (jsOfOptNum o) then 1 else 0 : ℕ)
      = if o.isSome then 1 else 0 := by
  cases o <;> simp [jsOfOptNum, JsField.isFilled]

theorem filled_if_optInt (o : Option ℕ) :
    (if JsField.isFilled (jsOfOptInt o) then 1 else 0 : ℕ)
      = if o.isSome then 1 else 0 := by
  cases o <;> simp [jsOfOptInt, JsField.isFilled]

theorem filled_if_optHours (o : Option BusinessHours) :
    (if JsField.isFilled (jsOfOptHours o) then 1 else 0 : ℕ)
      = if o.isSome then 1 else 0 := by
  cases o <;> simp [jsOfOptHours, JsField.isFilled]

theorem completeness_filter_count (b : Business) :
    ((completenessFields b).filter JsField.isFilled).length = specFilledCount b := by
  simp only [completenessFields, filled_count_cons, List.filter_nil, List.length_nil,
    filled_if_str, filled_if_optStr, filled_if_optNum, filled_if_optInt, filled_if_optHours]
  unfold specFilledCount
  omega

/-! ## Claim theorems -/

/-- Claim C1: in every record built by the assembler, and in every empty
record from `createEmptyBusiness`, the `attributes.hasWebsite` flag is true
exactly when `contact.website` holds a non-empty string — for every website
value (empty, whitespace-only, valid URL); it is derived from the extracted
website, never set independently. -/
theorem hasWebsite_iff_website_nonempty :
    ∀ (page : Page) (now : ℕ),
      ((extractBusinessData page).attributes.hasWebsite = true ↔
        websiteNonEmpty (extractBusinessData page).contact.website)
      ∧ ((createEmptyBusiness now).attributes.hasWebsite = true ↔
        websiteNonEmpty (createEmptyBusiness now).contact.website) := by
  intro page now
  constructor
  · rw [extractBusinessData_hasWebsite, extractBusinessData_website]
    simp [jsTruthyStr, websiteNonEmpty]
  · simp [createEmptyBusiness, websiteNonEmpty]

/-- Claim C2: the completeness score is a pure deterministic function of
exactly the nine tracked fields; it equals the filled-field count divided
by nine, times 100, rounded to the nearest integer; it is 0 on an all-empty
record and 100 on a fully populated one. -/
theorem completeness_pure_deterministic :
    ∀ b : Business,
      calculateDataCompleteness b = mathRound (specFilledCount b * 100) 9
      ∧ (∀ b2 : Business, nineFieldsAgree b b2 →
          calculateDataCompleteness b = calculateDataCompleteness b2)
      ∧ calculateDataCompleteness (createEmptyBusiness 0) = 0
      ∧ calculateDataCompleteness populatedBusiness = 100 := by
  intro b
  have formula : ∀ c : Business,
      calculateDataCompleteness c = mathRound (specFilledCount c * 100) 9 := by
    intro c
    have hlen : (completenessFields c).length = 9 := rfl
    unfold calculateDataCompleteness
    dsimp only
    rw [completeness_filter_count, hlen]
  refine ⟨formula b, ?_, by rfl, by rfl⟩
  intro b2 h
  obtain ⟨e1, e2, e3, e4, e5, e6, e7, e8, e9⟩ := h
  rw [formula b, formula b2]
  unfold specFilledCount
  rw [e1, e2, e3, e4, e5, e6, e7, e8, e9]

/-- Witness for C2 at concrete records: two records agreeing on the nine
tracked fields but differing in untracked ones get the same score. -/
theorem completeness_pure_deterministic_witness :
    calculateDataCompleteness populatedBusiness
      = calculateDataCompleteness populatedBusinessAlt :=
  (completeness_pure_deterministic populatedBusiness).2.1 populatedBusinessAlt
    ⟨rfl, rfl, rfl, rfl, rfl, rfl, rfl, rfl, rfl⟩

/-- Claim C10: the hours and image extraction routines are stubs, so every
assembled record has no business hours, an empty photo list and no logo
URL; consequently its completeness score is the seven-field count (hours
and logo contribute nothing). -/
theorem assembler_hours_images_stubbed :
    ∀ page : Page,
      extractBusinessHours page = none
      ∧ extractImageUrls page = []
      ∧ (extractBusinessData page).businessHours = none
      ∧ (extractBusinessData page).images.photoUrls = []
      ∧ (extractBusinessData page).images.logoUrl = none
      ∧ calculateDataCompleteness (extractBusinessData page)
          = mathRound (sevenFilledCount (extractBusinessData page) * 100) 9 := by
  intro page
  refine ⟨rfl, rfl, rfl, rfl, rfl, ?_⟩
  have hlen : (completenessFields (extractBusinessData page)).length = 9 := rfl
  unfold calculateDataCompleteness
  dsimp only
  rw [completeness_filter_count, hlen]
  have hh : (extractBusinessData page).businessHours = none := rfl
  have hl : (extractBusinessData page).images.logoUrl = none := rfl
  unfold specFilledCount sevenFilledCount
  rw [hh, hl]
  simp [strFilled]

/-- Claim C3 counterexample: on a page where the website locator misses,
the assembled record's website is the empty string (`some ""`), not
absent — attribute extraction returns `''` on a miss, contradicting the
claimed `undefined`/absent. -/
theorem extract_attribute_miss_not_absent_cex :
    pageAllMiss.query SELECTORS_contact_websiteUrl = QueryResult.missing
    ∧ extractHref pageAllMiss SELECTORS_contact_websiteUrl = ""
    ∧ (extractBusinessData pageAllMiss).contact.website = some ""
    ∧ (extractBusinessData pageAllMiss).contact.website ≠ none := by
  refine ⟨rfl, rfl, rfl, ?_⟩
  rw [extractBusinessData_website]
  simp [extractHref, pageAllMiss]

/-- Claim C3 (amended): the field-extraction operations never throw for
any page state and any locator input (thrown DOM errors are caught and
treated as a miss); on a miss `extractText`, `extractHref` and
`extractAriaLabel` all return the empty string — never null and never
undefined. -/
theorem extractors_empty_on_miss :
    ∀ (page : Page) (selector : String),
      page.query selector = QueryResult.missing ∨ page.query selector = QueryResult.throws →
      extractText page selector = ""
      ∧ extractHref page selector = ""
      ∧ extractAriaLabel page selector = "" := by
  intro page selector h
  rcases h with h | h <;>
    exact ⟨by simp [extractText, h], by simp [extractHref, h], by simp [extractAriaLabel, h]⟩

/-- Witness for the amended C3 at a concrete page and selector. -/
theorem extractors_empty_on_miss_witness :
    extractText pageAllMiss "div" = ""
    ∧ extractHref pageAllMiss "div" = ""
    ∧ extractAriaLabel pageAllMiss "div" = "" :=
  extractors_empty_on_miss pageAllMiss "div" (Or.inl rfl)

/-- Claim C4 counterexample: on a page where the primary business-name
locator misses but the declared fallback locator `h1` matches, the scraper
still extracts the empty string, while the spec's fallback resolution would
extract the matched text — the fallback lists are never consulted. -/
theorem fallbacks_unused_cex :
    (extractBusinessData pageFallbackOnly).businessName = ""
    ∧ extractTextFallbacksSpec pageFallbackOnly FALLBACK_businessName = "Acme"
    ∧ (extractBusinessData pageFallbackOnly).businessName
        ≠ extractTextFallbacksSpec pageFallbackOnly FALLBACK_businessName := by
  have h1 : (extractBusinessData pageFallbackOnly).businessName = "" := by decide
  have h2 : extractTextFallbacksSpec pageFallbackOnly FALLBACK_businessName = "Acme" := by
    decide
  refine ⟨h1, h2, ?_⟩
  rw [h1, h2]
  decide

/-- Claim C4 (amended): extraction of the business name, phone and website
uses only the single primary locator; the declared fallback lists are dead
data — two pages agreeing on the three primary locators yield the same
three fields, whatever the fallback locators would resolve to. -/
theorem extraction_uses_primary_only :
    ∀ p q : Page,
      p.query SELECTORS_details_businessName = q.query SELECTORS_details_businessName →
      p.query SELECTORS_contact_phoneNumber = q.query SELECTORS_contact_phoneNumber →
      p.query SELECTORS_contact_websiteUrl = q.query SELECTORS_contact_websiteUrl →
      (extractBusinessData p).businessName = (extractBusinessData q).businessName
      ∧ (extractBusinessData p).contact.phoneNumber = (extractBusinessData q).contact.phoneNumber
      ∧ (extractBusinessData p).contact.website = (extractBusinessData q).contact.website := by
  intro p q h1 h2 h3
  refine ⟨?_, ?_, ?_⟩
  · rw [extractBusinessData_businessName, extractBusinessData_businessName,
      extractText_congr _ h1]
  · rw [extractBusinessData_phoneNumber, extractBusinessData_phoneNumber,
      extractText_congr _ h2]
  · rw [extractBusinessData_website, extractBusinessData_website, extractHref_congr _ h3]

/-- Witness for the amended C4: `pageFallbackOnly` and `pageAllMiss` agree
on the three primary locators (all miss) though their fallbacks differ. -/
theorem extraction_uses_primary_only_witness :
    (extractBusinessData pageFallbackOnly).businessName
        = (extractBusinessData pageAllMiss).businessName
    ∧ (extractBusinessData pageFallbackOnly).contact.phoneNumber
        = (extractBusinessData pageAllMiss).contact.phoneNumber
    ∧ (extractBusinessData pageFallbackOnly).contact.website
        = (extractBusinessData pageAllMiss).contact.website :=
  extraction_uses_primary_only pageFallbackOnly pageAllMiss rfl rfl rfl

/-- Claim C5 counterexample: a session whose result wait times out with the
no-results indicator present throws `No results found for search query` to
the caller; it does not return an empty result sequence. -/
theorem no_results_throws_cex :
    searchBusinesses sessionNoResults 20 = Except.error "No results found for search query"
    ∧ searchBusinesses sessionNoResults 20 ≠ Except.ok [] := by
  have h : searchBusinesses sessionNoResults 20
      = Except.error "No results found for search query" := rfl
  refine ⟨h, ?_⟩
  rw [h]
  intro hc
  exact Except.noConfusion hc

/-- Claim C5 (amended): whenever the result wait fails and the explicit
no-results indicator is present, the session throws the dedicated
`No results found for search query` error to the caller (rather than
returning an empty sequence). -/
theorem no_results_indicator_throws :
    ∀ (s : Session) (limit : ℕ),
      s.cardsAppeared = false → s.noResultsShown = true →
      searchBusinesses s limit = Except.error "No results found for search query" := by
  intro s limit h1 h2
  simp [searchBusinesses, waitForSearchResults, h1, h2]

/-- Witness for the amended C5 at a concrete session. -/
theorem no_results_indicator_throws_witness :
    searchBusinesses sessionNoResults 20
      = Except.error "No results found for search query" :=
  no_results_indicator_throws sessionNoResults 20 rfl rfl

/-- Claim C6: a session with limit `n` and `m` available cards attempts
exactly the first `min n m` cards in DOM order and produces exactly one
scrape result per attempted card, in the same order. -/
theorem session_processes_first_min_cards :
    ∀ (s : Session) (limit : ℕ),
      s.cardsAppeared = true →
      searchBusinesses s limit
          = Except.ok ((s.cards.take limit).map extractBusinessDetails)
      ∧ ((s.cards.take limit).map extractBusinessDetails).length
          = min limit s.cards.length := by
  intro s limit h
  constructor
  · simp [searchBusinesses, waitForSearchResults, h, extractBusinessCards]
  · simp

/-- Witness for C6: with limit 5 and 12 available cards the session yields
exactly `min 5 12 = 5` results. -/
theorem session_processes_first_min_cards_witness :
    searchBusinesses session12 5
        = Except.ok ((session12.cards.take 5).map extractBusinessDetails)
    ∧ ((session12.cards.take 5).map extractBusinessDetails).length
        = min 5 session12.cards.length :=
  session_processes_first_min_cards session12 5 rfl

theorem getD_map_of_lt {α β : Type} (l : List α) (f : α → β) (i : ℕ) (d : β) (dc : α)
    (h : i < l.length) : (l.map f).getD i d = f (l.getD i dc) := by
  rw [List.getD_eq_getElem?_getD, List.getD_eq_getElem?_getD, List.getElem?_map,
    List.getElem?_eq_getElem h]
  simp

/-- Claim C7: a failure while processing one card is isolated — the
failure-tagged result still appears at that card's position, the output
has one result per attempted card, and every card within the limit is
attempted (each position of the output is that card's own result). -/
theorem per_card_failure_isolated :
    ∀ (s : Session) (limit i : ℕ),
      s.cardsAppeared = true →
      i < min limit s.cards.length →
      ((s.cards.take limit).getD i dummyCard).detailOk = false →
      ∃ rs : List ScrapeResult,
        searchBusinesses s limit = Except.ok rs
        ∧ rs.length = min limit s.cards.length
        ∧ (rs.getD i dummyResult).success = false
        ∧ ∀ j : ℕ, j < rs.length →
            rs.getD j dummyResult
              = extractBusinessDetails ((s.cards.take limit).getD j dummyCard) := by
  intro s limit i hc hi hbad
  refine ⟨(s.cards.take limit).map extractBusinessDetails, ?_, ?_, ?_, ?_⟩
  · simp [searchBusinesses, waitForSearchResults, hc, extractBusinessCards]
  · simp
  · have hi2 : i < (s.cards.take limit).length := by
      rw [List.length_take]
      exact hi
    rw [getD_map_of_lt _ _ _ _ dummyCard hi2]
    unfold extractBusinessDetails
    rw [hbad]
    simp
  · intro j hj
    have hj2 : j < (s.cards.take limit).length := by
      rw [List.length_take]
      rw [List.length_map, List.length_take] at hj
      exact hj
    rw [getD_map_of_lt _ _ _ _ dummyCard hj2]

/-- Witness for C7: in a five-card session whose third card times out, the
third result is failure-tagged and every position still carries its own
card's result. -/
theorem per_card_failure_isolated_witness :
    ∃ rs : List ScrapeResult,
      searchBusinesses sessionWithBadCard 5 = Except.ok rs
      ∧ rs.length = min 5 sessionWithBadCard.cards.length
      ∧ (rs.getD 2 dummyResult).success = false
      ∧ ∀ j : ℕ, j < rs.length →
          rs.getD j dummyResult
            = extractBusinessDetails ((sessionWithBadCard.cards.take 5).getD j dummyCard) :=
  per_card_failure_isolated sessionWithBadCard 5 2 rfl (by decide) (by decide)

theorem scrollGo_spec (heights : ℕ → ℕ) :
    ∀ d prev cur obs attempts : ℕ,
      maxScrollAttempts - attempts ≤ d → attempts ≤ maxScrollAttempts →
      (scrollGo heights prev cur obs attempts).2.2 ≤ maxScrollAttempts
      ∧ ((scrollGo heights prev cur obs attempts).1
            = (scrollGo heights prev cur obs attempts).2.1
         ∨ (scrollGo heights prev cur obs attempts).2.2 = maxScrollAttempts) := by
  intro d
  induction d with
  | zero =>
    intro prev cur obs attempts hd ha
    have h10 : attempts = maxScrollAttempts := by omega
    rw [scrollGo]
    have hcond : ¬(prev ≠ cur ∧ attempts < maxScrollAttempts) := by omega
    rw [dif_neg hcond]
    exact ⟨Nat.le_of_eq h10, Or.inr h10⟩
  | succ d ih =>
    intro prev cur obs attempts hd ha
    rw [scrollGo]
    by_cases hcond : prev ≠ cur ∧ attempts < maxScrollAttempts
    · rw [dif_pos hcond]
      exact ih cur (heights obs) (obs + 1) (attempts + 1) (by omega) (by omega)
    · rw [dif_neg hcond]
      refine ⟨ha, ?_⟩
      by_cases hpc : prev = cur
      · exact Or.inl hpc
      · have : attempts = maxScrollAttempts := by
          by_contra hne
          exact hcond ⟨hpc, by omega⟩
        exact Or.inr this

/-- Claim C9: the results-scrolling loop always terminates — for every
sequence of scroll-extent observations (including one that grows forever)
it performs at most `maxScrollAttempts = 10` iterations, and it stops
either because the extent was unchanged over the last iteration or because
the iteration bound was reached. -/
theorem scroll_loop_bounded :
    ∀ s : Session,
      (scrollResults s).2.2 ≤ maxScrollAttempts
      ∧ ((scrollResults s).1 = (scrollResults s).2.1
         ∨ (scrollResults s).2.2 = maxScrollAttempts) := by
  intro s
  unfold scrollResults
  by_cases h : s.containerFound
  · rw [if_pos h]
    exact scrollGo_spec s.heights maxScrollAttempts 0 (s.heights 0) 1 0 (by omega) (by omega)
  · rw [if_neg h]
    exact ⟨by decide, Or.inl rfl⟩

/-! ## Substring machinery for the rating-parse claim -/

/-- Whether the literal `star` occurs (case-sensitively) anywhere in the
character list. -/
def containsStar : List Char → Bool
  | [] => false
  | c :: cs => beginsWith starLit (c :: cs) || containsStar cs

theorem containsStar_of_suffix :
    ∀ cs ds : List Char, ds <:+ cs → beginsWith starLit ds = true →
      containsStar cs = true := by
  intro cs
  induction cs with
  | nil =>
    intro ds h hb
    rw [List.suffix_nil.mp h] at hb
    simp [starLit, beginsWith] at hb
  | cons c cs ih =>
    intro ds h hb
    rcases h with ⟨t, ht⟩
    cases t with
    | nil =>
      simp only [List.nil_append] at ht
      subst ht
      unfold containsStar
      rw [hb]
      simp
    | cons a t =>
      rw [List.cons_append] at ht
      injection ht with h1 h2
      have hcs : containsStar cs = true := ih ds ⟨t, h2⟩ hb
      unfold containsStar
      rw [hcs]
      simp

theorem afterNum_suffix (cs : List Char) : afterNum cs <:+ cs := by
  unfold afterNum
  split
  · rename_i r heq
    exact (List.dropWhile_suffix _).trans
      ((List.suffix_cons '.' r).trans (heq ▸ List.dropWhile_suffix Char.isDigit))
  · exact List.dropWhile_suffix Char.isDigit

theorem matchStarAt_contains (cs : List Char) (r : List Char × List Char)
    (h : matchStarAt cs = some r) : containsStar cs = true := by
  unfold matchStarAt at h
  split at h
  · exact absurd h (by simp)
  · split at h
    · rename_i hb
      exact containsStar_of_suffix cs _
        ((List.dropWhile_suffix _).trans (afterNum_suffix cs)) hb
    · exact absurd h (by simp)

theorem findStarNum_of_not_contains :
    ∀ cs : List Char, containsStar cs = false → findStarNum cs = none := by
  intro cs
  induction cs with
  | nil => intro _; rfl
  | cons c cs ih =>
    intro h
    have hsplit := h
    unfold containsStar at hsplit
    rw [Bool.or_eq_false_iff] at hsplit
    cases hm : matchStarAt (c :: cs) with
    | some r =>
      have hc := matchStarAt_contains _ _ hm
      rw [h] at hc
      exact Bool.noConfusion hc
    | none =>
      unfold findStarNum
      rw [hm]
      exact ih hsplit.2

/-- Claim C8 counterexample: the regex `/(\d+\.?\d*)\s*star/` has no `i`
flag, so matching is case sensitive — on `4.5 Stars` the code returns
absent while the claimed case-insensitive first match would return 4.5. -/
theorem parseRating_not_case_insensitive_cex :
    parseRating "4.5 Stars" = none
    ∧ parseRatingCI "4.5 Stars" = some ((9 : ℚ) / 2)
    ∧ parseRating "4.5 Stars" ≠ parseRatingCI "4.5 Stars" := by
  have h1 : parseRating "4.5 Stars" = none := rfl
  have h2 : parseRatingCI "4.5 Stars" = some ((9 : ℚ) / 2) := by
    show some (jsParseFloat ['4'] ['5']) = some ((9 : ℚ) / 2)
    have hd1 : digitsToNat ['4'] = 4 := by decide
    have hd2 : digitsToNat ['5'] = 5 := by decide
    unfold jsParseFloat
    rw [hd1, hd2]
    norm_num
  refine ⟨h1, h2, ?_⟩
  rw [h1, h2]
  simp

/-- Claim C8 (amended): rating parsing takes the first case-SENSITIVE
match of the decimal-number-followed-by-`star` pattern in the aria-label
and returns that number (`4.5 stars` yields 4.5); any string in which the
literal `star` does not occur — such as `Rated 4.5 out of 5` — yields
absent, and the function is total (never crashes). -/
theorem parseRating_first_case_sensitive_match :
    parseRating "4.5 stars" = some ((9 : ℚ) / 2)
    ∧ parseRating "Rated 4.5 out of 5" = none
    ∧ (∀ s : String, containsStar s.toList = false → parseRating s = none) := by
  refine ⟨?_, rfl, ?_⟩
  · show some (jsParseFloat ['4'] ['5']) = some ((9 : ℚ) / 2)
    have hd1 : digitsToNat ['4'] = 4 := by decide
    have hd2 : digitsToNat ['5'] = 5 := by decide
    unfold jsParseFloat
    rw [hd1, hd2]
    norm_num
  · intro s h
    unfold parseRating
    rw [findStarNum_of_not_contains _ h]

/-- Witness for the amended C8 at a concrete star-free string. -/
theorem parseRating_first_case_sensitive_match_witness :
    parseRating "Rated 4.5 out of 5" = none :=
  parseRating_first_case_sensitive_match.2.2 "Rated 4.5 out of 5" (by decide)

end GMaps
